import Mathlib

/-!
Verification of the task-event pipeline (publisher, idempotent consumers,
reminder scheduler, recurrence calculator) against its design document.

The Python sources are shallowly embedded:

* `datetime` values are modelled to one-second granularity by `PyDateTime`
  (year/month/day/hour/minute/second as integers); `timedelta` arithmetic
  goes through a civil-calendar/day-number conversion, and
  `dateutil.relativedelta` month/year addition clamps the day of month,
  as the library does.
* Python strings that undergo character-level operations
  (`upper`, `lower`, `strip`, `split`, `int(...)`) are modelled as lists of
  Unicode code points (`List Nat`); the operations are faithful on the
  ASCII range used by the rule grammar.  Strings that are only compared or
  concatenated stay Lean `String`s.
* Fallible code returns `Except`; network interactions are modelled by
  explicit response oracles (`StoreResponse`) passed in as arguments, and
  externally visible side effects are collected in an explicit effect list.
-/

/-! ## Civil-calendar arithmetic (model of Python `datetime` / `timedelta`) -/

/-- Day number of a civil date (proleptic Gregorian), days since 1970-01-01.
Standard era/year-of-era computation, valid for all integer years. -/
def daysFromCivil (y m d : Int) : Int :=
  let y' := y - (if m ≤ 2 then 1 else 0)
  let era := Int.fdiv y' 400
  let yoe := y' - era * 400
  let mp := if m > 2 then m - 3 else m + 9
  let doy := Int.fdiv (153 * mp + 2) 5 + d - 1
  let doe := yoe * 365 + Int.fdiv yoe 4 - Int.fdiv yoe 100 + doy
  era * 146097 + doe - 719468

/-- Inverse of `daysFromCivil`: civil date from days since 1970-01-01. -/
def civilFromDays (z0 : Int) : Int × Int × Int :=
  let z := z0 + 719468
  let era := Int.fdiv z 146097
  let doe := z - era * 146097
  let yoe := Int.fdiv (doe - Int.fdiv doe 1460 + Int.fdiv doe 36524 - Int.fdiv doe 146096) 365
  let y := yoe + era * 400
  let doy := doe - (365 * yoe + Int.fdiv yoe 4 - Int.fdiv yoe 100)
  let mp := Int.fdiv (5 * doy + 2) 153
  let d := doy - Int.fdiv (153 * mp + 2) 5 + 1
  let m := if mp < 10 then mp + 3 else mp - 9
  (y + (if m ≤ 2 then 1 else 0), m, d)

/-- Model of a Python `datetime` at one-second granularity. -/
structure PyDateTime where
  year : Int
  month : Int
  day : Int
  hour : Int
  minute : Int
  second : Int
deriving Repr, DecidableEq

/-- Seconds since the 1970-01-01T00:00:00 epoch. -/
def PyDateTime.toSeconds (t : PyDateTime) : Int :=
  daysFromCivil t.year t.month t.day * 86400
    + t.hour * 3600 + t.minute * 60 + t.second

/-- Rebuild a `PyDateTime` from an epoch-second count. -/
def PyDateTime.ofSeconds (n : Int) : PyDateTime :=
  let days := Int.fdiv n 86400
  let rem := n - days * 86400
  let c := civilFromDays days
  ⟨c.1, c.2.1, c.2.2, Int.fdiv rem 3600, Int.fdiv (Int.emod rem 3600) 60,
    Int.emod rem 60⟩

/-- `t + timedelta(seconds=n)`. -/
def addSeconds (t : PyDateTime) (n : Int) : PyDateTime :=
  PyDateTime.ofSeconds (t.toSeconds + n)

/-- `t + timedelta(days=n)` (time of day is preserved). -/
def addDays (t : PyDateTime) (n : Int) : PyDateTime :=
  addSeconds t (n * 86400)

/-- `t - timedelta(minutes=n)`. -/
def subMinutes (t : PyDateTime) (n : Int) : PyDateTime :=
  addSeconds t (-(n * 60))

/-- Number of days in a Gregorian month. -/
def daysInMonth (y m : Int) : Int :=
  if m = 2 then
    if Int.emod y 4 = 0 ∧ (Int.emod y 100 ≠ 0 ∨ Int.emod y 400 = 0) then 29 else 28
  else if m = 4 ∨ m = 6 ∨ m = 9 ∨ m = 11 then 30
  else 31

/-- `t + relativedelta(months=n)`: true calendar-month addition with the day
of month clamped to the target month length, as `dateutil` does. -/
def addMonths (t : PyDateTime) (n : Int) : PyDateTime :=
  let total := t.year * 12 + (t.month - 1) + n
  let y := Int.fdiv total 12
  let m := Int.emod total 12 + 1
  ⟨y, m, min t.day (daysInMonth y m), t.hour, t.minute, t.second⟩

/-- `t + relativedelta(years=n)`: calendar-year addition with the day clamped
(Feb 29 advances to Feb 28 in a non-leap target year). -/
def addYears (t : PyDateTime) (n : Int) : PyDateTime :=
  let y := t.year + n
  ⟨y, t.month, min t.day (daysInMonth y t.month), t.hour, t.minute, t.second⟩

/-- Python `datetime` comparison `a < b` (naive datetimes compare by
instant). -/
def pyLt (a b : PyDateTime) : Bool :=
  a.toSeconds < b.toSeconds

/-! ## Python strings as code-point lists -/

/-- Code points of a string literal (model of a Python `str`). -/
def pyStr (s : String) : List Nat :=
  s.data.map Char.toNat

/-- `str.upper` on one code point (ASCII range, the range the rule grammar
uses). -/
def upperN (c : Nat) : Nat :=
  if 97 ≤ c ∧ c ≤ 122 then c - 32 else c

/-- `str.lower` on one code point (ASCII range). -/
def lowerN (c : Nat) : Nat :=
  if 65 ≤ c ∧ c ≤ 90 then c + 32 else c

/-- `str.upper`. -/
def pyUpper (s : List Nat) : List Nat := s.map upperN

/-- `str.lower`. -/
def pyLower (s : List Nat) : List Nat := s.map lowerN

/-- Python `str.isspace` on one code point (ASCII whitespace). -/
def isSpaceN (c : Nat) : Bool :=
  c = 32 ∨ c = 9 ∨ c = 10 ∨ c = 11 ∨ c = 12 ∨ c = 13

/-- `str.strip()`: remove leading and trailing whitespace. -/
def pyStrip (s : List Nat) : List Nat :=
  ((s.dropWhile isSpaceN).reverse.dropWhile isSpaceN).reverse

/-- ASCII decimal digit test. -/
def isDigitN (c : Nat) : Bool :=
  48 ≤ c ∧ c ≤ 57

/-- Digit run of Python `int`: digits with optional single underscores
between digits, accumulating the value; `none` on any violation. -/
def pyDigitsCore : List Nat → Nat → Option Nat
  | [], acc => some acc
  | 95 :: c :: rest, acc =>
      if isDigitN c then pyDigitsCore rest (acc * 10 + (c - 48)) else none
  | [95], _ => none
  | c :: rest, acc =>
      if isDigitN c then pyDigitsCore rest (acc * 10 + (c - 48)) else none

/-- Nonempty digit part of Python `int`. -/
def pyDigits : List Nat → Option Nat
  | [] => none
  | c :: rest => if isDigitN c then pyDigitsCore rest (c - 48) else none

/-- Python `int(s)`: surrounding whitespace, optional sign, then a digit
part; `none` models `ValueError`. -/
def pyInt (s : List Nat) : Option Int :=
  let t := pyStrip s
  match t with
  | 43 :: rest => (pyDigits rest).map (fun n => (n : Int))
  | 45 :: rest => (pyDigits rest).map (fun n => -(n : Int))
  | rest => (pyDigits rest).map (fun n => (n : Int))

/-- `str.split(sep)` for a one-code-point separator. -/
def pySplitOn (sep : Nat) : List Nat → List (List Nat)
  | [] => [[]]
  | c :: rest =>
      let r := pySplitOn sep rest
      if c = sep then [] :: r
      else
        match r with
        | [] => [[c]]
        | h :: t => (c :: h) :: t

/-- `str.startswith(p)`. -/
def pyStartsWith (p s : List Nat) : Bool :=
  s.take p.length = p

/-! ## Recurrence calculator
Embeds `backend/app/services/recurring.py` (the canonical, calendar-correct
calculator) and the divergent consumer-side calculator of
`services/recurring-task-service/app/handlers/task_completed.py`. -/

/-- The `ValueError` raise sites of `parse_recurrence_rule`. -/
inductive RecurrenceError
  /-- Recurrence rule cannot be empty. -/
  | emptyRule
  /-- Invalid INTERVAL format (bad number, or interval below 1). -/
  | invalidInterval
  /-- Unknown recurrence rule. -/
  | unknownRule
deriving Repr, DecidableEq

/-- The dict returned by `parse_recurrence_rule`:
`{type, interval, unit}`. -/
structure RecurrenceParts where
  rtype : String
  interval : Int
  unit : String
deriving Repr, DecidableEq

/-- Dispatch of `parse_recurrence_rule` after the
`rule = rule.upper().strip()` normalization. -/
def parse_recurrence_rule_normalized (rule : List Nat) :
    Except RecurrenceError RecurrenceParts :=
  if rule = pyStr "DAILY" then .ok ⟨"DAILY", 1, "days"⟩
  else if rule = pyStr "WEEKLY" then .ok ⟨"WEEKLY", 7, "days"⟩
  else if rule = pyStr "MONTHLY" then .ok ⟨"MONTHLY", 1, "months"⟩
  else if rule = pyStr "YEARLY" then .ok ⟨"YEARLY", 1, "years"⟩
  else if pyStartsWith (pyStr "INTERVAL:") rule then
    match pyInt ((pySplitOn 58 rule).getD 1 []) with
    | none => .error .invalidInterval
    | some interval =>
        if interval < 1 then .error .invalidInterval
        else .ok ⟨"INTERVAL", interval, "days"⟩
  else .error .unknownRule

/-- `parse_recurrence_rule` of `backend/app/services/recurring.py`: rejects
the empty string, uppercases and trims, then dispatches on the rule
grammar.  `58` is the code point of the colon separator. -/
def parse_recurrence_rule (rule0 : List Nat) :
    Except RecurrenceError RecurrenceParts :=
  if rule0 = [] then .error .emptyRule
  else parse_recurrence_rule_normalized (pyStrip (pyUpper rule0))

/-- `calculate_next_due_date` of `backend/app/services/recurring.py`.
Returns `.ok none` when the current due date is `None` (before any rule
parsing); propagates the `ValueError` of `parse_recurrence_rule`. -/
def calculate_next_due_date (current : Option PyDateTime) (rule : List Nat) :
    Except RecurrenceError (Option PyDateTime) :=
  match current with
  | none => .ok none
  | some c =>
      match parse_recurrence_rule rule with
      | .error e => .error e
      | .ok parsed =>
          if parsed.unit = "days" then .ok (some (addDays c parsed.interval))
          else if parsed.unit = "months" then
            .ok (some (addMonths c parsed.interval))
          else if parsed.unit = "years" then
            .ok (some (addYears c parsed.interval))
          else .ok (some (addDays c parsed.interval))

/-- The literal rule grammar stated by section 4.5 of the design document
(second definition, following the wording of the document, for comparison
with the implementation): `DAILY`, `WEEKLY`, `MONTHLY`, `YEARLY`, or
`INTERVAL:N` with `N` a positive integer in canonical decimal form. -/
def specRuleGrammar (s : List Nat) : Bool :=
  s = pyStr "DAILY" ∨ s = pyStr "WEEKLY" ∨ s = pyStr "MONTHLY"
    ∨ s = pyStr "YEARLY"
    ∨ (pyStartsWith (pyStr "INTERVAL:") s
        ∧ (let ds := s.drop 9
           ds ≠ [] ∧ ds.all isDigitN ∧ ds.headD 0 ≠ 48))

/-- Prefix match of the regex `every_(\d+)_<unitWord>` used by the
consumer-side calculator (`re.match`, so only a prefix of the rule has to
match; the optional trailing letter and any further text are
unconstrained). Returns the captured number. -/
def rcEveryNum (unitWord : List Nat) (rule : List Nat) : Option Nat :=
  if pyStartsWith (pyStr "every_") rule then
    let rest := rule.drop 6
    let digits := rest.takeWhile isDigitN
    if digits ≠ [] ∧ pyStartsWith unitWord (rest.drop digits.length) then
      some (digits.foldl (fun a c => a * 10 + (c - 48)) 0)
    else none
  else none

/-- `calculate_next_due_date` of
`services/recurring-task-service/app/handlers/task_completed.py` (the
consumer-side calculator).  The ISO-8601 parsing of the due-date string
(lines 126-132 of the handler) is abstracted: the input is the already
parsed datetime, with `none` standing for an absent, empty or unparseable
due-date string.  The rule dispatch (lines 134-161) is embedded as written:
`monthly` adds a fixed 30 days, and unknown rules yield `None`. -/
def rc_calculate_next_due_date (current_due_date : Option PyDateTime)
    (recurrence_rule : Option (List Nat)) : Option PyDateTime :=
  match current_due_date, recurrence_rule with
  | some current, some rule0 =>
      if rule0 = [] then none
      else
        let rule := pyStrip (pyLower rule0)
        if rule = pyStr "daily" then some (addDays current 1)
        else if rule = pyStr "weekly" then some (addDays current 7)
        else if rule = pyStr "monthly" then some (addDays current 30)
        else
          match rcEveryNum (pyStr "_day") rule with
          | some days => some (addDays current days)
          | none =>
              match rcEveryNum (pyStr "_week") rule with
              | some weeks => some (addDays current (7 * weeks))
              | none => none
  | _, _ => none


/-! ## Idempotency store client
Embeds `IdempotencyChecker.is_processed` (`chat-api/app/dapr/idempotency.py`
and the per-service copies in the three consumer handlers, which share the
same response handling and differ only in the marker-key scope). -/

/-- Outcome of one HTTP interaction with an external collaborator: either a
response (status code and body text) or a raised `httpx.RequestError`
(connection failure or timeout). -/
inductive StoreResponse
  /-- A response arrived, with status code and body text. -/
  | response (status : Nat) (body : String)
  /-- `httpx.RequestError`: unreachable host, connection failure, timeout. -/
  | requestError (msg : String)
deriving Repr, DecidableEq

/-- The external key-value store as seen by one call: the response it gives
to a GET of each key. -/
structure StoreWorld where
  get : String → StoreResponse

/-- `is_processed` response handling, shared by every checker: truthy
exactly when the store answered 200 with a non-empty body; any
`httpx.RequestError` is caught and mapped to `False` (the caller never sees
the transport error). -/
def is_processed_response (r : StoreResponse) : Bool :=
  match r with
  | .response status body => status = 200 ∧ body ≠ ""
  | .requestError _ => false

/-- `IdempotencyChecker.is_processed` of `chat-api/app/dapr/idempotency.py`
(marker key scope `processed:`). -/
def chat_is_processed (w : StoreWorld) (event_id : String) : Bool :=
  is_processed_response (w.get ("processed:" ++ event_id))

/-- `IdempotencyChecker.is_processed` of the notification-service handler
(scope `notification-processed:`). -/
def notif_is_processed (w : StoreWorld) (event_id : String) : Bool :=
  is_processed_response (w.get ("notification-processed:" ++ event_id))

/-- `IdempotencyChecker.is_processed` of the audit-service handler
(scope `audit-processed:`). -/
def audit_is_processed (w : StoreWorld) (event_id : String) : Bool :=
  is_processed_response (w.get ("audit-processed:" ++ event_id))

/-- `IdempotencyChecker.is_processed` of the recurring-task-service handler
(scope `recurring-processed:`). -/
def recurring_is_processed (w : StoreWorld) (event_id : String) : Bool :=
  is_processed_response (w.get ("recurring-processed:" ++ event_id))

/-! ## Consumer orchestrators
Embeds the three `handle_*` functions.  Externally visible state-changing
actions (idempotency-marker writes, database inserts, notification
delivery, downstream task creation) are collected in an explicit effect
list; reads of the idempotency store change no state and are not effects. -/

/-- A state-changing external action performed by a consumer handler. -/
inductive ConsumerEffect
  /-- `mark_processed`: write of the idempotency marker under this key. -/
  | markProcessed (key : String)
  /-- Audit scope: durable insert of the envelope into the audit table. -/
  | insertAudit (event_id : String)
  /-- Notification scope: the (stubbed) user-facing delivery action taken
  for a `reminder.triggered` event. -/
  | notifyUser (user_id task_title : String)
  /-- Recurrence scope: service invocation creating the next occurrence. -/
  | createTask (user_id title : String) (due_date : PyDateTime)
deriving Repr, DecidableEq

/-- Payload of a reminder event
(`notification-service/app/handlers/reminder.py`). -/
structure ReminderEventPayload where
  event_id : String
  event_type : String
  timestamp : String
  user_id : String
  task_id : String
  task_title : String
  due_at : Option String
  remind_at : String
deriving Repr, DecidableEq

/-- Result dict of `handle_reminder_event`; fields absent from a branch
are `none`. -/
structure NotifResult where
  status : String
  event_id : String
  message : String
  task_id : Option String
deriving Repr, DecidableEq

/-- `handle_reminder_event` of
`notification-service/app/handlers/reminder.py`: duplicate check, stubbed
notification (a real delivery action only for `reminder.triggered`), mark
processed, success. -/
def handle_reminder_event (w : StoreWorld) (p : ReminderEventPayload) :
    NotifResult × List ConsumerEffect :=
  if notif_is_processed w p.event_id then
    (⟨"duplicate", p.event_id, "Event already processed", none⟩, [])
  else
    let notifyFx : List ConsumerEffect :=
      if p.event_type = "reminder.triggered" then
        [.notifyUser p.user_id p.task_title]
      else []
    (⟨"success", p.event_id, "Notification logged (stubbed)", some p.task_id⟩,
      notifyFx ++ [.markProcessed ("notification-processed:" ++ p.event_id)])

/-- Payload of a task event (`audit-service/app/handlers/audit_log.py`).
The free-form `payload` dict is kept opaque; only the extracted task id is
modelled. -/
structure TaskEventPayload where
  event_id : String
  event_type : String
  timestamp : String
  user_id : String
  source : String
  payload_task_id : Option String
deriving Repr, DecidableEq

/-- Result dict of `handle_audit_event`. -/
structure AuditResult where
  status : String
  event_id : String
  message : String
  audit_log_id : Option String
deriving Repr, DecidableEq

/-- `handle_audit_event` of `audit-service/app/handlers/audit_log.py`:
duplicate check, durable insert of the envelope, mark processed with the
new row id, success.  `auditRowId` is the database-assigned id of the
inserted row. -/
def handle_audit_event (w : StoreWorld) (auditRowId : String)
    (p : TaskEventPayload) : AuditResult × List ConsumerEffect :=
  if audit_is_processed w p.event_id then
    (⟨"duplicate", p.event_id, "Event already audited", none⟩, [])
  else
    (⟨"success", p.event_id, "Event audited successfully", some auditRowId⟩,
      [.insertAudit p.event_id,
       .markProcessed ("audit-processed:" ++ p.event_id)])

/-- Payload of a `task.completed` event
(`recurring-task-service/app/handlers/task_completed.py`).  As in
`rc_calculate_next_due_date`, the ISO due-date string is abstracted to an
already parsed `Option PyDateTime`. -/
structure TaskCompletedPayload where
  event_id : String
  event_type : String
  timestamp : String
  user_id : String
  task_id : String
  title : String
  description : Option String
  status : String
  priority : String
  due_date : Option PyDateTime
  tags : List String
  reminder_offset_minutes : Option Int
  is_recurring : Bool
  recurrence_rule : Option (List Nat)
  parent_task_id : Option String
deriving Repr, DecidableEq

/-- Response of the chat-api to the next-occurrence creation call
(`create_task_via_dapr`): `none` for any failure, otherwise the created
task dict, of which only the `id` field is consulted. -/
structure CreatedTask where
  id : Option String
deriving Repr, DecidableEq

/-- External collaborators of `handle_task_completed_event`: the
idempotency store and the downstream task-creation service. -/
structure RcWorld where
  store : StoreWorld
  createdTask : Option CreatedTask

/-- Result dict of `handle_task_completed_event`. -/
structure RcResult where
  status : String
  event_id : String
  message : String
  task_id : Option String
  next_task_created : Option Bool
  next_task_id : Option String
  next_due_date : Option PyDateTime
deriving Repr, DecidableEq

/-- `handle_task_completed_event` of
`recurring-task-service/app/handlers/task_completed.py`: duplicate check;
non-recurring tasks and tasks with no computable next due date are marked
processed with no further action; otherwise the next occurrence is created
via service invocation and the event is marked processed either way. -/
def handle_task_completed_event (w : RcWorld) (p : TaskCompletedPayload) :
    RcResult × List ConsumerEffect :=
  if recurring_is_processed w.store p.event_id then
    (⟨"duplicate", p.event_id, "Event already processed",
        none, none, none, none⟩, [])
  else if ¬ p.is_recurring then
    (⟨"success", p.event_id, "Task is not recurring, no action needed",
        some p.task_id, some false, none, none⟩,
      [.markProcessed ("recurring-processed:" ++ p.event_id)])
  else
    match rc_calculate_next_due_date p.due_date p.recurrence_rule with
    | none =>
        (⟨"success", p.event_id, "Could not calculate next due date",
            some p.task_id, some false, none, none⟩,
          [.markProcessed ("recurring-processed:" ++ p.event_id)])
    | some next_due_date =>
        let fx : List ConsumerEffect :=
          [.createTask p.user_id p.title next_due_date,
           .markProcessed ("recurring-processed:" ++ p.event_id)]
        match w.createdTask with
        | some next_task =>
            (⟨"success", p.event_id, "Next recurring task created",
                some p.task_id, some true, next_task.id,
                some next_due_date⟩, fx)
        | none =>
            (⟨"error", p.event_id, "Failed to create next recurring task",
                some p.task_id, some false, none, none⟩, fx)

/-! ## Envelope builder and retrying publisher
Embeds `_build_event` and `publish_event` of
`chat-api/app/services/events.py`.  Each call to the broker is modelled by
an oracle from the attempt number to the HTTP outcome; the envelopes handed
to the broker and the back-off sleeps are returned as explicit traces. -/

/-- The event envelope built by `_build_event`.  The free-form payload dict
is modelled as a key-value list. -/
structure EventEnvelope where
  event_id : String
  event_type : String
  timestamp : String
  user_id : String
  payload : List (String × String)
  source : String
  specversion : String
deriving Repr, DecidableEq

/-- `_build_event`: envelope with `event_id or str(uuid4())` — the fresh
UUID (passed in as `uuid`, standing for the `uuid4()` call) is used when
the caller passes `None` and also when it passes the falsy empty string.
`nowIso` stands for `datetime.utcnow().isoformat() + "Z"`. -/
def build_event (event_type user_id : String)
    (payload : List (String × String)) (event_id : Option String)
    (uuid nowIso : String) : EventEnvelope :=
  { event_id := match event_id with
      | none => uuid
      | some s => if s = "" then uuid else s
    event_type := event_type
    timestamp := nowIso
    user_id := user_id
    payload := payload
    source := "chat-api"
    specversion := "1.0" }

/-- The `EventPublishError` raised after exhausting all attempts, carrying
the data interpolated into its message. -/
structure EventPublishError where
  topic : String
  retries : Nat
  lastError : Option String
deriving Repr, DecidableEq

/-- Trace of one `publish_event` call: the outcome, the envelope posted on
each attempt made, and the back-off sleeps in seconds. -/
structure PublishTrace where
  outcome : Except EventPublishError EventEnvelope
  posted : List EventEnvelope
  sleeps : List ℚ

/-- The response test of the publisher: a status of 200, 201 or 204 is
success; any other status, and any transport error, is a failed attempt. -/
def is_publish_success (r : StoreResponse) : Bool :=
  match r with
  | .response status _ => status = 200 ∨ status = 201 ∨ status = 204
  | .requestError _ => false

/-- The `last_error` description recorded for a failed attempt. -/
def publish_fail_msg : StoreResponse → String
  | .response status text => "HTTP " ++ toString status ++ ": " ++ text
  | .requestError msg => msg

/-- The retry loop of `publish_event` (`for attempt in range(1, MAX+1)`).
`remaining` counts the attempts still allowed, `attempt` is the 1-based
attempt number (so `attempt + remaining = maxRetries + 1` on entry), and
`lastError` carries the last failure description.  A successful attempt
returns the envelope; a failed one falls through to the back-off sleep
(`delay * 2 ^ (attempt - 1)`, skipped after the final attempt) and the
next attempt; exhaustion raises `EventPublishError` carrying the last
failure. -/
def publish_loop (broker : Nat → StoreResponse) (event : EventEnvelope)
    (topic : String) (delay : ℚ) (maxRetries : Nat) :
    Nat → Nat → Option String → PublishTrace
  | 0, _, lastError => ⟨.error ⟨topic, maxRetries, lastError⟩, [], []⟩
  | remaining + 1, attempt, _ =>
      if is_publish_success (broker attempt) then ⟨.ok event, [event], []⟩
      else
        let rest := publish_loop broker event topic delay maxRetries
          remaining (attempt + 1) (some (publish_fail_msg (broker attempt)))
        let sleep : List ℚ :=
          if attempt < maxRetries then [delay * 2 ^ (attempt - 1)] else []
        ⟨rest.outcome, event :: rest.posted, sleep ++ rest.sleeps⟩

/-- `publish_event` of `chat-api/app/services/events.py`: builds the
envelope once, short-circuits to the envelope when Dapr is disabled, and
otherwise runs the retry loop. -/
def publish_event (daprEnabled : Bool) (maxRetries : Nat) (retryDelay : ℚ)
    (broker : Nat → StoreResponse) (topic event_type user_id : String)
    (payload : List (String × String)) (event_id : Option String)
    (uuid nowIso : String) : PublishTrace :=
  let event := build_event event_type user_id payload event_id uuid nowIso
  if ¬ daprEnabled then ⟨.ok event, [], []⟩
  else publish_loop broker event topic retryDelay maxRetries maxRetries 1 none

/-! ## Callback scheduler and reminder calculation
Embeds `chat-api/app/services/reminder.py` ( `calculate_remind_at`,
`is_reminder_in_past`, `schedule_reminder_job`, `cancel_reminder_job`,
`reschedule_reminder_job`; `backend/app/services/reminder.py` contains a
textually identical `calculate_remind_at`) together with the
`DaprClient.schedule_job` / `cancel_job` wrappers of
`chat-api/app/dapr/client.py`. -/

/-- The external scheduler as seen by one call: its response to a job
creation POST and to a deletion DELETE. -/
structure SchedulerWorld where
  scheduleResp : StoreResponse
  cancelResp : StoreResponse

/-- Externally visible scheduler actions. -/
inductive SchedulerEffect
  /-- One-shot job registration under this name firing at this instant. -/
  | scheduleJob (job_name : String) (fire_time : PyDateTime)
  /-- Deletion of the job with this name. -/
  | cancelJob (job_name : String)
deriving Repr, DecidableEq

/-- `DaprClient.schedule_job` result: `True` on 200/201/204, `False` on any
other status or transport error. -/
def dapr_schedule_job (w : SchedulerWorld) : Bool :=
  match w.scheduleResp with
  | .response status _ => status = 200 ∨ status = 201 ∨ status = 204
  | .requestError _ => false

/-- `DaprClient.cancel_job` result: `True` on 200/204 and also on 404
(idempotent cancellation), `False` on any other status or transport
error. -/
def dapr_cancel_job (w : SchedulerWorld) : Bool :=
  match w.cancelResp with
  | .response status _ => status = 200 ∨ status = 204 ∨ status = 404
  | .requestError _ => false

/-- `_build_job_name`: deterministic job name per task. -/
def build_job_name (task_id : String) : String :=
  "reminder-" ++ task_id

/-- `is_reminder_in_past`: `none` is not in the past; otherwise a strict
comparison against `datetime.utcnow()`, which is passed in as `now`. -/
def is_reminder_in_past (remind_at : Option PyDateTime) (now : PyDateTime) :
    Bool :=
  match remind_at with
  | none => false
  | some t => pyLt t now

/-- `schedule_reminder_job`: refuses with `False` and no scheduler
interaction when `remind_at` is in the past; otherwise registers the
one-shot job under the deterministic name and returns the result of the
scheduler call. -/
def schedule_reminder_job (now : PyDateTime) (w : SchedulerWorld)
    (task_id _task_title _user_id : String) (_due_date : Option PyDateTime)
    (remind_at : PyDateTime) : Bool × List SchedulerEffect :=
  if is_reminder_in_past (some remind_at) now then (false, [])
  else (dapr_schedule_job w, [.scheduleJob (build_job_name task_id) remind_at])

/-- `cancel_reminder_job`: best-effort deletion by deterministic name. -/
def cancel_reminder_job (w : SchedulerWorld) (task_id : String) :
    Bool × List SchedulerEffect :=
  (dapr_cancel_job w, [.cancelJob (build_job_name task_id)])

/-- `reschedule_reminder_job`: always cancels first (its result is
discarded), then schedules only when a `remind_at` is supplied; with
`remind_at = None` it returns `True` unconditionally. -/
def reschedule_reminder_job (now : PyDateTime) (w : SchedulerWorld)
    (task_id task_title user_id : String) (due_date : Option PyDateTime)
    (remind_at : Option PyDateTime) : Bool × List SchedulerEffect :=
  let c := cancel_reminder_job w task_id
  match remind_at with
  | some r =>
      let s := schedule_reminder_job now w task_id task_title user_id
        due_date r
      (s.1, c.2 ++ s.2)
  | none => (true, c.2)

/-- The `ValueError` raise site of `calculate_remind_at`. -/
inductive ReminderValueError
  /-- reminder_offset_minutes must be non-negative. -/
  | negativeOffset
deriving Repr, DecidableEq

/-- `calculate_remind_at`: `None` when either input is `None` (checked
first), `ValueError` on a negative offset, otherwise
`due_date - timedelta(minutes=offset)`. -/
def calculate_remind_at (due_date : Option PyDateTime)
    (reminder_offset_minutes : Option Int) :
    Except ReminderValueError (Option PyDateTime) :=
  match due_date, reminder_offset_minutes with
  | some due, some off =>
      if off < 0 then .error .negativeOffset
      else .ok (some (subMinutes due off))
  | _, _ => .ok none
/-! ## Helper lemmas on the string model -/

theorem upperN_idem (c : Nat) : upperN (upperN c) = upperN c := by
  by_cases h : 97 ≤ c ∧ c ≤ 122
  · have h2 : ¬ (97 ≤ c - 32 ∧ c - 32 ≤ 122) := by omega
    simp only [upperN, if_pos h]
    rw [if_neg h2]
  · simp [upperN, h]

theorem pyUpper_idem (s : List Nat) : pyUpper (pyUpper s) = pyUpper s := by
  simp only [pyUpper, List.map_map]
  congr 1
  funext c
  simpa using upperN_idem c

theorem parse_recurrence_rule_upper (s : List Nat) :
    parse_recurrence_rule (pyUpper s) = parse_recurrence_rule s := by
  by_cases h : s = []
  · subst h; rfl
  · have h2 : ¬ pyUpper s = [] := by simpa [pyUpper] using h
    simp only [parse_recurrence_rule, h, h2, if_neg, if_false, pyUpper_idem]

/-! ## Claim C2 -/

/-- C2: the canonical recurrence calculator returns `None` for every rule
string when the current due date is `None`; it performs true calendar
addition for MONTHLY and YEARLY in general, and in particular
2024-01-31 + 1 month = 2024-02-29, 2023-01-31 + 1 month = 2023-02-28,
and 2024-02-29 + 1 year = 2025-02-28. -/
theorem c2_canonical_calculator :
    (∀ rule, calculate_next_due_date none rule = .ok none)
    ∧ (∀ d, calculate_next_due_date (some d) (pyStr "MONTHLY")
        = .ok (some (addMonths d 1)))
    ∧ (∀ d, calculate_next_due_date (some d) (pyStr "YEARLY")
        = .ok (some (addYears d 1)))
    ∧ calculate_next_due_date (some ⟨2024, 1, 31, 0, 0, 0⟩) (pyStr "MONTHLY")
        = .ok (some ⟨2024, 2, 29, 0, 0, 0⟩)
    ∧ calculate_next_due_date (some ⟨2023, 1, 31, 0, 0, 0⟩) (pyStr "MONTHLY")
        = .ok (some ⟨2023, 2, 28, 0, 0, 0⟩)
    ∧ calculate_next_due_date (some ⟨2024, 2, 29, 0, 0, 0⟩) (pyStr "YEARLY")
        = .ok (some ⟨2025, 2, 28, 0, 0, 0⟩) :=
  ⟨fun _ => rfl, fun _ => rfl, fun _ => rfl, rfl, rfl, rfl⟩

/-! ## Claim C1 -/

/-- C1: at due instant 2024-01-31T00:00Z with rule `monthly`, the
recurring-task-service consumer advances by a fixed 30 days to
2024-03-01T00:00Z, whereas one true calendar month (the canonical
calculator on the same instant) gives 2024-02-29T00:00Z — the consumer
does not use true calendar-month addition. -/
theorem c1_monthly_fixed_days :
    rc_calculate_next_due_date (some ⟨2024, 1, 31, 0, 0, 0⟩)
        (some (pyStr "monthly")) = some ⟨2024, 3, 1, 0, 0, 0⟩
    ∧ calculate_next_due_date (some ⟨2024, 1, 31, 0, 0, 0⟩) (pyStr "MONTHLY")
        = .ok (some ⟨2024, 2, 29, 0, 0, 0⟩)
    ∧ (⟨2024, 3, 1, 0, 0, 0⟩ : PyDateTime) ≠ ⟨2024, 2, 29, 0, 0, 0⟩ :=
  ⟨rfl, rfl, by decide⟩

/-! ## Claim C7 -/

/-- C7 counterexample: `INTERVAL:2:X` lies outside the documented grammar
(`INTERVAL:N` with `N` a positive integer), yet `parse_rule` accepts it
with interval 2 instead of raising — the extra colon-separated segment is
ignored by `rule.split(":")[1]`. -/
theorem c7_grammar_counterexample :
    parse_recurrence_rule (pyStr "INTERVAL:2:X")
        = .ok ⟨"INTERVAL", 2, "days"⟩
    ∧ specRuleGrammar (pyStr "INTERVAL:2:X") = false :=
  ⟨rfl, by decide⟩

/-- C7 amended: `parse_rule` normalizes with `upper().strip()` before
matching, so recognition is case-insensitive (proved for every string) and
tolerant of surrounding whitespace, and in an `INTERVAL` rule only the
segment between the first and second colon is read as the interval; on the
claimed inputs it gives `INTERVAL:3 -> {INTERVAL, 3, days}` and raises
`ValueError` on `interval:0` (interval below 1) and on `FOO` (unknown
rule). -/
theorem c7_amended_grammar :
    parse_recurrence_rule (pyStr "INTERVAL:3") = .ok ⟨"INTERVAL", 3, "days"⟩
    ∧ parse_recurrence_rule (pyStr "interval:0") = .error .invalidInterval
    ∧ parse_recurrence_rule (pyStr "FOO") = .error .unknownRule
    ∧ (∀ s, parse_recurrence_rule (pyUpper s) = parse_recurrence_rule s)
    ∧ parse_recurrence_rule (pyStr "daily") = .ok ⟨"DAILY", 1, "days"⟩
    ∧ parse_recurrence_rule (pyStr " WEEKLY ") = .ok ⟨"WEEKLY", 7, "days"⟩ :=
  ⟨rfl, rfl, rfl, parse_recurrence_rule_upper, rfl, rfl⟩

/-! ## Claim C3 -/

/-- C3: for each of the three consumer orchestrators, when the idempotency
store already reports the event id as processed, handling returns the
duplicate result and an empty effect list: no domain effect (no audit
insert, no notification action, no next-occurrence creation) and no
idempotency-marker write. -/
theorem c3_duplicate_is_noop :
    (∀ (w : StoreWorld) (p : ReminderEventPayload),
        notif_is_processed w p.event_id = true →
        handle_reminder_event w p =
          (⟨"duplicate", p.event_id, "Event already processed", none⟩, []))
    ∧ (∀ (w : StoreWorld) (rowId : String) (p : TaskEventPayload),
        audit_is_processed w p.event_id = true →
        handle_audit_event w rowId p =
          (⟨"duplicate", p.event_id, "Event already audited", none⟩, []))
    ∧ (∀ (w : RcWorld) (p : TaskCompletedPayload),
        recurring_is_processed w.store p.event_id = true →
        handle_task_completed_event w p =
          (⟨"duplicate", p.event_id, "Event already processed",
              none, none, none, none⟩, [])) := by
  refine ⟨fun w p h => ?_, fun w rowId p h => ?_, fun w p h => ?_⟩
  · simp [handle_reminder_event, h]
  · simp [handle_audit_event, h]
  · simp [handle_task_completed_event, h]

/-- Witness for C3 at a store that answers 200 with a marker body. -/
theorem c3_duplicate_is_noop_witness :
    handle_reminder_event ⟨fun _ => .response 200 "m"⟩
        ⟨"e1", "reminder.triggered", "ts", "u1", "t1", "Title", none, "r"⟩
      = (⟨"duplicate", "e1", "Event already processed", none⟩, [])
    ∧ handle_audit_event ⟨fun _ => .response 200 "m"⟩ "row9"
        ⟨"e2", "task.created", "ts", "u1", "chat-api", none⟩
      = (⟨"duplicate", "e2", "Event already audited", none⟩, [])
    ∧ handle_task_completed_event ⟨⟨fun _ => .response 200 "m"⟩, none⟩
        ⟨"e3", "task.completed", "ts", "u1", "t1", "Title", none,
          "completed", "high", none, [], none, true, none, none⟩
      = (⟨"duplicate", "e3", "Event already processed",
          none, none, none, none⟩, []) :=
  ⟨c3_duplicate_is_noop.1 ⟨fun _ => .response 200 "m"⟩
      ⟨"e1", "reminder.triggered", "ts", "u1", "t1", "Title", none, "r"⟩
      (by decide),
   c3_duplicate_is_noop.2.1 ⟨fun _ => .response 200 "m"⟩ "row9"
      ⟨"e2", "task.created", "ts", "u1", "chat-api", none⟩ (by decide),
   c3_duplicate_is_noop.2.2 ⟨⟨fun _ => .response 200 "m"⟩, none⟩
      ⟨"e3", "task.completed", "ts", "u1", "t1", "Title", none,
        "completed", "high", none, [], none, true, none, none⟩
      (by decide)⟩

/-! ## Claim C6 -/

/-- C6: `is_processed` maps any transport error (store unreachable or
timed out, both raised as `httpx.RequestError`) to `false` — the error is
caught, never propagated — and answers `true` exactly when the store
responded 200 with a non-empty marker body. -/
theorem c6_is_processed_transport :
    ∀ (w : StoreWorld) (event_id : String),
      (∀ msg, w.get ("processed:" ++ event_id) = .requestError msg →
          chat_is_processed w event_id = false)
      ∧ (chat_is_processed w event_id = true ↔
          ∃ body, body ≠ ""
            ∧ w.get ("processed:" ++ event_id) = .response 200 body) := by
  intro w event_id
  constructor
  · intro msg h
    simp [chat_is_processed, h, is_processed_response]
  · constructor
    · intro h
      rcases hr : w.get ("processed:" ++ event_id) with ⟨status, body⟩ | msg
      · rw [chat_is_processed, hr] at h
        simp only [is_processed_response, decide_eq_true_eq] at h
        exact ⟨body, h.2, by rw [h.1]⟩
      · rw [chat_is_processed, hr] at h
        simp [is_processed_response] at h
    · rintro ⟨body, hb, hr⟩
      simp [chat_is_processed, hr, is_processed_response, hb]

/-- Witness for C6 at an unreachable store. -/
theorem c6_is_processed_transport_witness :
    chat_is_processed ⟨fun _ => .requestError "connection refused"⟩ "e1"
      = false :=
  (c6_is_processed_transport ⟨fun _ => .requestError "connection refused"⟩
      "e1").1 "connection refused" rfl

/-! ## Claim C8 -/

/-- C8: when `remind_at` is strictly earlier than the current time,
`schedule_reminder_job` returns `false` with no scheduler interaction; and
whenever a job registration effect is emitted, `remind_at` was not in the
past. -/
theorem c8_no_past_schedule :
    ∀ (now : PyDateTime) (w : SchedulerWorld)
      (task_id task_title user_id : String) (due_date : Option PyDateTime)
      (remind_at : PyDateTime),
      (pyLt remind_at now = true →
        schedule_reminder_job now w task_id task_title user_id due_date
          remind_at = (false, []))
      ∧ (∀ name fire,
          SchedulerEffect.scheduleJob name fire ∈
            (schedule_reminder_job now w task_id task_title user_id due_date
              remind_at).2 →
          pyLt remind_at now = false) := by
  intro now w task_id task_title user_id due_date remind_at
  constructor
  · intro h
    simp [schedule_reminder_job, is_reminder_in_past, h]
  · intro name fire hm
    by_cases hp : pyLt remind_at now
    · simp [schedule_reminder_job, is_reminder_in_past, hp] at hm
    · simpa using hp

/-- Witness for C8 one second in the past: remind_at 2024-01-01T00:00:00,
now 2024-01-01T00:00:01. -/
theorem c8_no_past_schedule_witness :
    pyLt ⟨2024, 1, 1, 0, 0, 0⟩ ⟨2024, 1, 1, 0, 0, 1⟩ = true
    ∧ schedule_reminder_job ⟨2024, 1, 1, 0, 0, 1⟩
        ⟨.response 204 "", .response 204 ""⟩ "t1" "Title" "u1" none
        ⟨2024, 1, 1, 0, 0, 0⟩ = (false, []) :=
  ⟨by decide,
   (c8_no_past_schedule ⟨2024, 1, 1, 0, 0, 1⟩
      ⟨.response 204 "", .response 204 ""⟩ "t1" "Title" "u1" none
      ⟨2024, 1, 1, 0, 0, 0⟩).1 (by decide)⟩

/-! ## Claim C9 -/

/-- C9 counterexample: with a scheduler whose deletion call answers 500,
`reschedule_reminder_job(..., None)` still returns `True` while the pure
cancellation path `cancel_reminder_job` returns `False` — the two outcomes
differ even though the performed effects coincide. -/
theorem c9_outcome_counterexample :
    reschedule_reminder_job ⟨2024, 1, 1, 0, 0, 0⟩
        ⟨.response 204 "", .response 500 ""⟩ "t1" "Title" "u1" none none
      = (true, [.cancelJob "reminder-t1"])
    ∧ cancel_reminder_job ⟨.response 204 "", .response 500 ""⟩ "t1"
      = (false, [.cancelJob "reminder-t1"])
    ∧ (true : Bool) ≠ false :=
  ⟨rfl, rfl, by decide⟩

/-- C9 amended: rescheduling with `remind_at = None` performs exactly the
effects of `cancel_reminder_job` (cancellation by the deterministic name)
and never emits a job registration; its return value is the constant
`True`, which agrees with the pure cancellation outcome exactly when the
cancellation succeeds. -/
theorem c9_none_is_cancel :
    ∀ (now : PyDateTime) (w : SchedulerWorld)
      (task_id task_title user_id : String) (due_date : Option PyDateTime),
      reschedule_reminder_job now w task_id task_title user_id due_date none
        = (true, (cancel_reminder_job w task_id).2)
      ∧ (∀ name fire,
          SchedulerEffect.scheduleJob name fire ∉
            (reschedule_reminder_job now w task_id task_title user_id
              due_date none).2)
      ∧ ((cancel_reminder_job w task_id).1 = true →
          (reschedule_reminder_job now w task_id task_title user_id due_date
            none).1 = (cancel_reminder_job w task_id).1) := by
  intro now w task_id task_title user_id due_date
  refine ⟨rfl, fun name fire => ?_, fun h => ?_⟩
  · simp [reschedule_reminder_job, cancel_reminder_job]
  · rw [h]
    rfl

/-- Witness for C9 at a scheduler whose deletion succeeds with 204. -/
theorem c9_none_is_cancel_witness :
    (reschedule_reminder_job ⟨2024, 1, 1, 0, 0, 0⟩
        ⟨.response 204 "", .response 204 ""⟩ "t1" "Title" "u1" none none).1
      = (cancel_reminder_job ⟨.response 204 "", .response 204 ""⟩ "t1").1 :=
  (c9_none_is_cancel ⟨2024, 1, 1, 0, 0, 0⟩
      ⟨.response 204 "", .response 204 ""⟩ "t1" "Title" "u1" none).2.2
    (by decide)

/-! ## Claim C10 -/

/-- C10: `calculate_remind_at` raises `ValueError` on every negative
offset (instead of returning an instant after the due date), returns
`None` when either input is `None`, and otherwise returns the due date
minus the offset in minutes. -/
theorem c10_negative_offset_rejected :
    ∀ (due : PyDateTime) (off : Int),
      (off < 0 →
        calculate_remind_at (some due) (some off) = .error .negativeOffset)
      ∧ (∀ o, calculate_remind_at none o = .ok none)
      ∧ (∀ d, calculate_remind_at d none = .ok none)
      ∧ (0 ≤ off →
        calculate_remind_at (some due) (some off)
          = .ok (some (subMinutes due off))) := by
  intro due off
  refine ⟨fun h => ?_, fun o => rfl, fun d => ?_, fun h => ?_⟩
  · simp [calculate_remind_at, h]
  · cases d <;> rfl
  · have h2 : ¬ off < 0 := not_lt.mpr h
    simp [calculate_remind_at, h2]

/-- Witness for C10 at offset -1 (rejected) and offset 60 (subtracted). -/
theorem c10_negative_offset_rejected_witness :
    calculate_remind_at (some ⟨2024, 1, 1, 12, 0, 0⟩) (some (-1))
      = .error .negativeOffset
    ∧ calculate_remind_at (some ⟨2024, 1, 1, 12, 0, 0⟩) (some 60)
      = .ok (some (subMinutes ⟨2024, 1, 1, 12, 0, 0⟩ 60)) :=
  ⟨(c10_negative_offset_rejected ⟨2024, 1, 1, 12, 0, 0⟩ (-1)).1 (by decide),
   (c10_negative_offset_rejected ⟨2024, 1, 1, 12, 0, 0⟩ 60).2.2.2
     (by decide)⟩

/-! ## Publisher lemmas -/

theorem publish_loop_posted_eq (broker : Nat → StoreResponse)
    (event : EventEnvelope) (topic : String) (delay : ℚ) (maxRetries : Nat) :
    ∀ (remaining attempt : Nat) (le : Option String) (e : EventEnvelope),
      e ∈ (publish_loop broker event topic delay maxRetries remaining attempt
        le).posted → e = event := by
  intro remaining
  induction remaining with
  | zero =>
      intro attempt le e h
      simp [publish_loop] at h
  | succ r ih =>
      intro attempt le e h
      by_cases hs : is_publish_success (broker attempt) = true
      · simp [publish_loop, hs] at h
        exact h
      · have hs' : is_publish_success (broker attempt) = false := by
          simpa using hs
        simp only [publish_loop, hs', Bool.false_eq_true, if_false,
          List.mem_cons] at h
        rcases h with h | h
        · exact h
        · exact ih (attempt + 1) _ e h

theorem publish_loop_first_success (broker : Nat → StoreResponse)
    (event : EventEnvelope) (topic : String) (delay : ℚ) (maxRetries : Nat) :
    ∀ (remaining attempt : Nat) (le : Option String) (i : Nat),
      attempt ≤ i → i < attempt + remaining →
      is_publish_success (broker i) = true →
      (publish_loop broker event topic delay maxRetries remaining attempt
        le).outcome = .ok event := by
  intro remaining
  induction remaining with
  | zero =>
      intro attempt le i h1 h2 h3
      omega
  | succ r ih =>
      intro attempt le i h1 h2 h3
      by_cases hs : is_publish_success (broker attempt) = true
      · simp [publish_loop, hs]
      · have hs' : is_publish_success (broker attempt) = false := by
          simpa using hs
        have hne : i ≠ attempt := by
          intro he
          rw [he] at h3
          exact hs h3
        simp only [publish_loop, hs', Bool.false_eq_true, if_false]
        exact ih (attempt + 1) _ i (by omega) (by omega) h3

theorem publish_loop_all_fail (broker : Nat → StoreResponse)
    (event : EventEnvelope) (topic : String) (delay : ℚ) (maxRetries : Nat) :
    ∀ (remaining attempt : Nat) (le : Option String),
      1 ≤ attempt → attempt + remaining = maxRetries + 1 →
      (∀ i, attempt ≤ i → i < attempt + remaining →
        is_publish_success (broker i) = false) →
      ∃ le',
        publish_loop broker event topic delay maxRetries remaining attempt le
          = ⟨.error ⟨topic, maxRetries, le'⟩,
             List.replicate remaining event,
             (List.range (remaining - 1)).map
               (fun k => delay * 2 ^ (attempt - 1 + k))⟩ := by
  intro remaining
  induction remaining with
  | zero =>
      intro attempt le h1 h2 h3
      exact ⟨le, by simp [publish_loop]⟩
  | succ r ih =>
      intro attempt le h1 h2 h3
      have hf : is_publish_success (broker attempt) = false :=
        h3 attempt (Nat.le_refl attempt) (by omega)
      obtain ⟨le', hrest⟩ := ih (attempt + 1)
        (some (publish_fail_msg (broker attempt))) (by omega) (by omega)
        (fun i hi1 hi2 => h3 i (by omega) (by omega))
      refine ⟨le', ?_⟩
      simp only [publish_loop, hf, Bool.false_eq_true, if_false]
      rw [hrest]
      rcases r with _ | r'
      · have ha : ¬ attempt < maxRetries := by omega
        simp [ha]
      · have ha : attempt < maxRetries := by omega
        have hmap : (List.range (r' + 1)).map
            (fun k => delay * 2 ^ (attempt - 1 + k))
            = delay * 2 ^ (attempt - 1)
              :: (List.range r').map
                  (fun k => delay * 2 ^ (attempt + 1 - 1 + k)) := by
          rw [List.range_succ_eq_map, List.map_cons, List.map_map]
          congr 1
          apply List.map_congr_left
          intro a _
          show delay * 2 ^ (attempt - 1 + (a + 1))
            = delay * 2 ^ (attempt + 1 - 1 + a)
          rw [show attempt - 1 + (a + 1) = attempt + 1 - 1 + a by omega]
        simp [ha, hmap, List.replicate_succ]

/-! ## Claim C4 -/

/-- C4 counterexample: a broker answering 202 (a 2xx status) on every
attempt still drives `publish_event` to exhaustion and the distinguishable
error — only 200, 201 and 204 count as success, not every 2xx. -/
theorem c4_two_xx_counterexample :
    (publish_event true 3 1 (fun _ => .response 202 "Accepted") "t"
        "task.created" "u" [] none "uuid-1" "now").outcome
      = .error ⟨"t", 3, some "HTTP 202: Accepted"⟩
    ∧ (200 ≤ 202 ∧ 202 < 300) :=
  ⟨rfl, by decide⟩

/-- C4 amended: when every attempt up to the configured maximum yields a
status outside {200, 201, 204} or a transport error, `publish_event` makes
exactly the maximum number of attempts, sleeps
`base_delay * 2 ^ (attempt - 1)` between consecutive attempts, and raises
the distinguishable `EventPublishError`; as soon as some reachable attempt
returns 200, 201 or 204 it returns the built envelope instead. -/
theorem c4_retry_backoff_raise :
    ∀ (maxRetries : Nat) (delay : ℚ) (broker : Nat → StoreResponse)
      (topic event_type user_id : String) (payload : List (String × String))
      (event_id : Option String) (uuid nowIso : String),
      ((∀ i, 1 ≤ i → i ≤ maxRetries →
          is_publish_success (broker i) = false) →
        (∃ le, (publish_event true maxRetries delay broker topic event_type
              user_id payload event_id uuid nowIso).outcome
            = .error ⟨topic, maxRetries, le⟩)
        ∧ (publish_event true maxRetries delay broker topic event_type
            user_id payload event_id uuid nowIso).posted.length = maxRetries
        ∧ (publish_event true maxRetries delay broker topic event_type
            user_id payload event_id uuid nowIso).sleeps
          = (List.range (maxRetries - 1)).map (fun k => delay * 2 ^ k))
      ∧ ((∃ i, 1 ≤ i ∧ i ≤ maxRetries ∧
            is_publish_success (broker i) = true) →
        (publish_event true maxRetries delay broker topic event_type user_id
            payload event_id uuid nowIso).outcome
          = .ok (build_event event_type user_id payload event_id uuid
              nowIso)) := by
  intro maxRetries delay broker topic event_type user_id payload event_id
    uuid nowIso
  constructor
  · intro hall
    obtain ⟨le', heq⟩ := publish_loop_all_fail broker
      (build_event event_type user_id payload event_id uuid nowIso) topic
      delay maxRetries maxRetries 1 none (Nat.le_refl 1) (by omega)
      (fun i h1 h2 => hall i h1 (by omega))
    have hpe : publish_event true maxRetries delay broker topic event_type
        user_id payload event_id uuid nowIso
        = publish_loop broker
            (build_event event_type user_id payload event_id uuid nowIso)
            topic delay maxRetries maxRetries 1 none := rfl
    rw [hpe, heq]
    refine ⟨⟨le', rfl⟩, by simp, ?_⟩
    apply List.map_congr_left
    intro a _
    show delay * 2 ^ (1 - 1 + a) = delay * 2 ^ a
    rw [show 1 - 1 + a = a by omega]
  · rintro ⟨i, h1, h2, h3⟩
    exact publish_loop_first_success broker
      (build_event event_type user_id payload event_id uuid nowIso) topic
      delay maxRetries maxRetries 1 none i h1 (by omega) h3

/-- Witness for C4: a permanently unreachable broker exhausts 2 attempts
with one back-off sleep and raises; a broker answering 204 succeeds. -/
theorem c4_retry_backoff_raise_witness :
    ((∃ le, (publish_event true 2 1 (fun _ => .requestError "net down") "t"
          "task.created" "u" [] none "uuid-1" "now").outcome
        = .error ⟨"t", 2, le⟩)
      ∧ (publish_event true 2 1 (fun _ => .requestError "net down") "t"
          "task.created" "u" [] none "uuid-1" "now").posted.length = 2
      ∧ (publish_event true 2 1 (fun _ => .requestError "net down") "t"
          "task.created" "u" [] none "uuid-1" "now").sleeps
        = (List.range 1).map (fun k => (1 : ℚ) * 2 ^ k))
    ∧ (publish_event true 2 1 (fun _ => .response 204 "") "t"
        "task.created" "u" [] none "uuid-1" "now").outcome
      = .ok (build_event "task.created" "u" [] none "uuid-1" "now") :=
  ⟨(c4_retry_backoff_raise 2 1 (fun _ => .requestError "net down") "t"
      "task.created" "u" [] none "uuid-1" "now").1 (fun _ _ _ => rfl),
   (c4_retry_backoff_raise 2 1 (fun _ => .response 204 "") "t"
      "task.created" "u" [] none "uuid-1" "now").2
    ⟨1, Nat.le_refl 1, by omega, rfl⟩⟩

/-! ## Claim C5 -/

/-- C5 counterexample: a caller-supplied empty-string `event_id` is falsy
in `event_id or str(uuid4())`, so the envelope carries a fresh UUID
instead of the caller value — "the caller's value otherwise" fails for the
empty string. -/
theorem c5_empty_id_counterexample :
    (build_event "task.created" "u" [] (some "") "uuid-1" "now").event_id
      = "uuid-1"
    ∧ ("uuid-1" : String) ≠ "" :=
  ⟨rfl, by decide⟩

/-- C5 amended: the envelope `event_id` is fixed once before the first
attempt — a fresh UUID when the caller supplies `None` or the falsy empty
string, the caller value otherwise — and every envelope handed to the
broker on any attempt of the call carries exactly that `event_id`; it is
never regenerated between attempts. -/
theorem c5_event_id_fixed :
    ∀ (enabled : Bool) (maxRetries : Nat) (delay : ℚ)
      (broker : Nat → StoreResponse) (topic event_type user_id : String)
      (payload : List (String × String)) (event_id : Option String)
      (uuid nowIso : String),
      (build_event event_type user_id payload event_id uuid nowIso).event_id
        = (match event_id with
           | none => uuid
           | some s => if s = "" then uuid else s)
      ∧ (∀ e ∈ (publish_event enabled maxRetries delay broker topic
            event_type user_id payload event_id uuid nowIso).posted,
          e.event_id
            = (match event_id with
               | none => uuid
               | some s => if s = "" then uuid else s)) := by
  intro enabled maxRetries delay broker topic event_type user_id payload
    event_id uuid nowIso
  refine ⟨rfl, fun e he => ?_⟩
  cases enabled with
  | false => simp [publish_event] at he
  | true =>
      have he' : e ∈ (publish_loop broker
          (build_event event_type user_id payload event_id uuid nowIso)
          topic delay maxRetries maxRetries 1 none).posted := he
      rw [publish_loop_posted_eq broker
        (build_event event_type user_id payload event_id uuid nowIso)
        topic delay maxRetries maxRetries 1 none e he']
      exact rfl

/-- Witness for C5: with no caller id, the envelope posted on the (single,
successful) attempt carries the fresh UUID. -/
theorem c5_event_id_fixed_witness :
    (build_event "task.created" "u" [] none "uuid-1" "now").event_id
      = "uuid-1" :=
  (c5_event_id_fixed true 1 1 (fun _ => .response 204 "") "t"
      "task.created" "u" [] none "uuid-1" "now").2
    (build_event "task.created" "u" [] none "uuid-1" "now") (by decide)
